import Mathlib

/-!
# Verification of the oddity-rtsp server core

A shallow embedding of the oddity-rtsp repository's core components, with
theorems checking the natural-language specification against the code:

* the `RTP-Info` header parser and printer
  (`src/oddity-rtsp-protocol/src/rtp_info.rs`),
* the framing codec state machine (`src/oddity-rtsp-protocol/src/tokio.rs`),
* the request handler (`src/oddity-rtsp-server/src/connection.rs`),
* the session registry (`src/oddity-rtsp-server/src/session/session_manager.rs`).

Rust strings are modelled as `List Char`, byte buffers as `List Nat` with
values below 256, and the machine integers `u16`/`u32` as `Nat` with explicit
bounds `2^16`/`2^32`.  Components of the repository whose source is not part
of the verified tree (the response builder, the message and interleaved
parsers, the media controller and session internals) are modelled from the
specification text; each such definition says so in its doc comment.
-/

namespace OddityRtsp

/-! ## Decimal parsing and printing

Models Rust's `str::parse` for unsigned integers and the `Display`
rendering of unsigned integers, which `rtp_info.rs` relies on. -/

/-- Numeric value of an ASCII digit character, `none` for non-digits. -/
def digitVal? (c : Char) : Option Nat :=
  if '0' ≤ c ∧ c ≤ '9' then some (c.toNat - '0'.toNat) else none

/-- Accumulating decimal parse over characters; fails on the first
non-digit character. -/
def parseNatCore : List Char → Nat → Option Nat
  | [], acc => some acc
  | c :: rest, acc =>
    match digitVal? c with
    | some d => parseNatCore rest (acc * 10 + d)
    | none => none

/-- Parse a nonempty all-digit character list into a `Nat`. -/
def parseNatPlain : List Char → Option Nat
  | [] => none
  | cs => parseNatCore cs 0

/-- Rust `str::parse::<uN>()` for an unsigned integer type with `bound`
values (`2^16` for `u16`, `2^32` for `u32`): an optional leading `+`, then
one or more ASCII digits; the value must be below `bound`. -/
def rustParseNat (bound : Nat) (cs : List Char) : Option Nat :=
  let cs' :=
    match cs with
    | c :: rest => if c = '+' then rest else c :: rest
    | [] => []
  match parseNatPlain cs' with
  | some v => if v < bound then some v else none
  | none => none

/-- ASCII digit character for a digit value below ten. -/
def digitChar (d : Nat) : Char := Char.ofNat (48 + d)

/-- Decimal rendering of a `Nat` exactly as Rust's `Display` for unsigned
integers prints it: most significant digit first, `"0"` for zero. -/
def natChars (n : Nat) : List Char :=
  if n = 0 then ['0'] else (Nat.digits 10 n).reverse.map digitChar

/-! ## RTP-Info (`src/oddity-rtsp-protocol/src/rtp_info.rs`) -/

/-- The `RtpInfo` record of `rtp_info.rs`: mandatory `url`, optional
`seq : u16` and `rtptime : u32` (bounds carried by `RtpInfo.WF`). -/
structure RtpInfo where
  url : List Char
  seq : Option Nat
  rtptime : Option Nat
deriving DecidableEq, Repr

/-- The `u16`/`u32` bounds that the Rust field types impose. -/
def RtpInfo.WF (r : RtpInfo) : Prop :=
  (∀ v ∈ r.seq, v < 2 ^ 16) ∧ (∀ v ∈ r.rtptime, v < 2 ^ 32)

/-- `RtpInfo::new`: a record with the given url and no timing parameters. -/
def RtpInfo.new (url : List Char) : RtpInfo :=
  ⟨url, none, none⟩

/-- The error variants of `rtp_info.rs` (`super::Error`), each carrying the
offending input fragment. -/
inductive RtpError where
  | rtpInfoParameterInvalid (value : List Char)
  | rtpInfoParameterUnknown (value : List Char)
  | rtpInfoParameterUnexpected (value : List Char)
  | rtpInfoUrlMissing (value : List Char)
deriving DecidableEq, Repr

/-- Rust `str::strip_prefix`: `some` of the remainder when `p` is a prefix
of the input, `none` otherwise. -/
def stripPfx : List Char → List Char → Option (List Char)
  | [], cs => some cs
  | _ :: _, [] => none
  | p :: ps, c :: cs => if c = p then stripPfx ps cs else none

/-- Rust `str::split(';')`: the list of `;`-separated segments; never
empty, and the empty input yields one empty segment. -/
def splitSemi : List Char → List (List Char)
  | [] => [[]]
  | c :: rest =>
    if c = ';' then [] :: splitSemi rest
    else
      match splitSemi rest with
      | [] => [[c]]
      | g :: gs => (c :: g) :: gs

/-- The inner `parse_parameter` helper of `RtpInfo::from_str`: a `seq=`
parameter parsed as `u16`, or an `rtptime=` parameter parsed as `u32`,
stored into the record (overwriting any earlier value); anything else is
`RtpInfoParameterUnknown`, and an unparsable number is
`RtpInfoParameterInvalid`. -/
def parse_parameter (part : List Char) (r : RtpInfo) : Except RtpError RtpInfo :=
  match stripPfx ['s', 'e', 'q', '='] part with
  | some v =>
    match rustParseNat (2 ^ 16) v with
    | some n => .ok { r with seq := some n }
    | none => .error (.rtpInfoParameterInvalid part)
  | none =>
    match stripPfx ['r', 't', 'p', 't', 'i', 'm', 'e', '='] part with
    | some v =>
      match rustParseNat (2 ^ 32) v with
      | some n => .ok { r with rtptime := some n }
      | none => .error (.rtpInfoParameterInvalid part)
    | none => .error (.rtpInfoParameterUnknown part)

/-- `RtpInfo::from_str`: split on `;`; the first segment must carry the
`url=` prefix; then at most two further parameter segments are fed to
`parse_parameter`, and a fourth segment is `RtpInfoParameterUnexpected`. -/
def RtpInfo.from_str (s : List Char) : Except RtpError RtpInfo :=
  match splitSemi s with
  | [] => .error (.rtpInfoUrlMissing s)
  | url :: rest =>
    match stripPfx ['u', 'r', 'l', '='] url with
    | some u =>
      let r0 := RtpInfo.new u
      match rest with
      | [] => .ok r0
      | p1 :: rest1 =>
        match parse_parameter p1 r0 with
        | .error e => .error e
        | .ok r1 =>
          match rest1 with
          | [] => .ok r1
          | p2 :: rest2 =>
            match parse_parameter p2 r1 with
            | .error e => .error e
            | .ok r2 =>
              match rest2 with
              | [] => .ok r2
              | p3 :: _ => .error (.rtpInfoParameterUnexpected p3)
    | none => .error (.rtpInfoParameterUnknown url)

/-- The `Display` implementation for `RtpInfo`: `url=<url>`, then
`;seq=<seq>` when present, then `;rtptime=<rtptime>` when present. -/
def RtpInfo.toChars (r : RtpInfo) : List Char :=
  ['u', 'r', 'l', '='] ++ r.url
    ++ (match r.seq with
        | some v => [';'] ++ ['s', 'e', 'q', '='] ++ natChars v
        | none => [])
    ++ (match r.rtptime with
        | some v => [';'] ++ ['r', 't', 'p', 't', 'i', 'm', 'e', '='] ++ natChars v
        | none => [])

/-! ### Decimal round-trip lemmas -/

theorem digitVal?_digitChar {d : Nat} (hd : d < 10) :
    digitVal? (digitChar d) = some d := by
  interval_cases d <;> decide

theorem parseNatCore_map_digitChar :
    ∀ (L : List Nat) (acc : Nat), (∀ d ∈ L, d < 10) →
      parseNatCore (L.map digitChar) acc
        = some (L.foldl (fun a d => a * 10 + d) acc)
  | [], _, _ => rfl
  | d :: L, acc, h => by
    have hd : d < 10 := h d (List.mem_cons_self d L)
    have hL : ∀ x ∈ L, x < 10 := fun x hx => h x (List.mem_cons_of_mem _ hx)
    simp only [List.map_cons, parseNatCore, digitVal?_digitChar hd, List.foldl_cons]
    exact parseNatCore_map_digitChar L (acc * 10 + d) hL

theorem foldr_eq_ofDigits : ∀ L : List Nat,
    L.foldr (fun d a => a * 10 + d) 0 = Nat.ofDigits 10 L
  | [] => by simp [Nat.ofDigits]
  | d :: L => by
    simp only [List.foldr_cons, foldr_eq_ofDigits L, Nat.ofDigits_cons]
    ring

theorem natChars_ne_nil (n : Nat) : natChars n ≠ [] := by
  unfold natChars
  split
  · simp
  · simp only [ne_eq, List.map_eq_nil_iff, List.reverse_eq_nil_iff]
    exact Nat.digits_ne_nil_iff_ne_zero.mpr (by assumption)

theorem natChars_mem_digit {n : Nat} {c : Char} (h : c ∈ natChars n) :
    '0' ≤ c ∧ c ≤ '9' := by
  unfold natChars at h
  split at h
  · simp only [List.mem_singleton] at h
    subst h; decide
  · simp only [List.mem_map] at h
    obtain ⟨d, hd, rfl⟩ := h
    have hlt : d < 10 := Nat.digits_lt_base (by norm_num) (List.mem_reverse.mp hd)
    interval_cases d <;> decide

theorem natChars_not_semi (n : Nat) : ';' ∉ natChars n := by
  intro h
  have := natChars_mem_digit h
  revert this; decide

theorem natChars_head_ne_plus {n : Nat} {c : Char} (hc : c ∈ natChars n) :
    c ≠ '+' := by
  intro he
  have := natChars_mem_digit hc
  rw [he] at this
  revert this; decide

theorem parseNatPlain_cons (c : Char) (cs : List Char) :
    parseNatPlain (c :: cs) = parseNatCore (c :: cs) 0 := rfl

theorem parseNatPlain_natChars (n : Nat) : parseNatPlain (natChars n) = some n := by
  by_cases h : n = 0
  · subst h; rfl
  · have hmap : natChars n = (Nat.digits 10 n).reverse.map digitChar := by
      simp [natChars, h]
    have hd : ∀ d ∈ (Nat.digits 10 n).reverse, d < 10 := fun d hdm =>
      Nat.digits_lt_base (by norm_num) (List.mem_reverse.mp hdm)
    have hcore := parseNatCore_map_digitChar ((Nat.digits 10 n).reverse) 0 hd
    have hfold : (Nat.digits 10 n).reverse.foldl (fun a d => a * 10 + d) 0 = n := by
      rw [List.foldl_reverse]
      exact (foldr_eq_ofDigits _).trans (Nat.ofDigits_digits 10 n)
    obtain ⟨c, cs, hc⟩ := List.exists_cons_of_ne_nil (natChars_ne_nil n)
    rw [hc, parseNatPlain_cons, ← hc, hmap, hcore, hfold]

theorem rustParseNat_natChars {bound n : Nat} (hn : n < bound) :
    rustParseNat bound (natChars n) = some n := by
  obtain ⟨c, cs, hc⟩ := List.exists_cons_of_ne_nil (natChars_ne_nil n)
  have hcp : c ≠ '+' := natChars_head_ne_plus (hc ▸ List.mem_cons_self c cs)
  have hplain := parseNatPlain_natChars n
  rw [hc] at hplain
  rw [hc, rustParseNat.eq_def]
  simp only [if_neg hcp, hplain, if_pos hn]

/-! ### Split and prefix lemmas -/

theorem stripPfx_append : ∀ (p cs : List Char), stripPfx p (p ++ cs) = some cs
  | [], _ => rfl
  | c :: ps, cs => by
    simp only [List.cons_append, stripPfx, if_pos rfl]
    exact stripPfx_append ps cs

theorem splitSemi_no_semi : ∀ {u : List Char}, ';' ∉ u → splitSemi u = [u]
  | [], _ => rfl
  | c :: rest, h => by
    have hc : ¬ c = ';' := fun hh => h (hh ▸ List.mem_cons_self c rest)
    have hrest : ';' ∉ rest := fun hh => h (List.mem_cons_of_mem _ hh)
    rw [splitSemi, if_neg hc, splitSemi_no_semi hrest]

theorem splitSemi_append {u : List Char} (rest : List Char) (h : ';' ∉ u) :
    splitSemi (u ++ ';' :: rest) = u :: splitSemi rest := by
  induction u with
  | nil => simp [splitSemi]
  | cons c cs ih =>
    have hc : ¬ c = ';' := fun hh => h (hh ▸ List.mem_cons_self c cs)
    have hcs : ';' ∉ cs := fun hh => h (List.mem_cons_of_mem _ hh)
    rw [List.cons_append, splitSemi, if_neg hc, ih hcs]

/-! ### Parameter segment lemmas -/

theorem parse_parameter_seq {v : Nat} (hv : v < 2 ^ 16) (r : RtpInfo) :
    parse_parameter (['s', 'e', 'q', '='] ++ natChars v) r
      = .ok { r with seq := some v } := by
  simp only [parse_parameter, stripPfx_append, rustParseNat_natChars hv]

theorem parse_parameter_rtptime {v : Nat} (hv : v < 2 ^ 32) (r : RtpInfo) :
    parse_parameter (['r', 't', 'p', 't', 'i', 'm', 'e', '='] ++ natChars v) r
      = .ok { r with rtptime := some v } := by
  have h1 : stripPfx ['s', 'e', 'q', '=']
      (['r', 't', 'p', 't', 'i', 'm', 'e', '='] ++ natChars v) = none := rfl
  simp only [parse_parameter, h1, stripPfx_append, rustParseNat_natChars hv]

theorem semi_not_mem_url_tag : ';' ∉ (['u', 'r', 'l', '='] : List Char) := by decide

theorem semi_not_mem_seq_seg {v : Nat} :
    ';' ∉ (['s', 'e', 'q', '='] ++ natChars v : List Char) := by
  intro h
  rcases List.mem_append.mp h with h | h
  · revert h; decide
  · exact natChars_not_semi v h

theorem semi_not_mem_rtptime_seg {v : Nat} :
    ';' ∉ (['r', 't', 'p', 't', 'i', 'm', 'e', '='] ++ natChars v : List Char) := by
  intro h
  rcases List.mem_append.mp h with h | h
  · revert h; decide
  · exact natChars_not_semi v h

theorem semi_not_mem_url_part {u : List Char} (hu : ';' ∉ u) :
    ';' ∉ (['u', 'r', 'l', '='] ++ u : List Char) := by
  intro h
  rcases List.mem_append.mp h with h | h
  · revert h; decide
  · exact hu h

/-! ### Claims about RTP-Info -/

/-- C9: for every `RtpInfo` whose url contains no `;`, parsing the
`Display` rendering (`url=<url>`, then `;seq=<seq>` if present, then
`;rtptime=<rtptime>` if present) returns the original record. -/
theorem rtp_info_roundtrip (r : RtpInfo) (hsemi : ';' ∉ r.url) (hwf : r.WF) :
    RtpInfo.from_str r.toChars = .ok r := by
  obtain ⟨u, sq, rt⟩ := r
  obtain ⟨hs, ht⟩ := hwf
  simp only at hsemi hs ht
  have hA := semi_not_mem_url_part hsemi
  cases sq with
  | none =>
    cases rt with
    | none =>
      have he : RtpInfo.toChars ⟨u, none, none⟩ = ['u', 'r', 'l', '='] ++ u := by
        simp [RtpInfo.toChars]
      rw [he, RtpInfo.from_str, splitSemi_no_semi hA]
      simp only [stripPfx_append, RtpInfo.new]
    | some t =>
      have htb : t < 2 ^ 32 := ht t rfl
      have he : RtpInfo.toChars ⟨u, none, some t⟩
          = (['u', 'r', 'l', '='] ++ u)
            ++ ';' :: (['r', 't', 'p', 't', 'i', 'm', 'e', '='] ++ natChars t) := by
        simp [RtpInfo.toChars]
      rw [he, RtpInfo.from_str, splitSemi_append _ hA,
        splitSemi_no_semi semi_not_mem_rtptime_seg]
      simp only [stripPfx_append, RtpInfo.new, parse_parameter_rtptime htb]
  | some s =>
    have hsb : s < 2 ^ 16 := hs s rfl
    cases rt with
    | none =>
      have he : RtpInfo.toChars ⟨u, some s, none⟩
          = (['u', 'r', 'l', '='] ++ u)
            ++ ';' :: (['s', 'e', 'q', '='] ++ natChars s) := by
        simp [RtpInfo.toChars]
      rw [he, RtpInfo.from_str, splitSemi_append _ hA,
        splitSemi_no_semi semi_not_mem_seq_seg]
      simp only [stripPfx_append, RtpInfo.new, parse_parameter_seq hsb]
    | some t =>
      have htb : t < 2 ^ 32 := ht t rfl
      have he : RtpInfo.toChars ⟨u, some s, some t⟩
          = (['u', 'r', 'l', '='] ++ u)
            ++ ';' :: ((['s', 'e', 'q', '='] ++ natChars s)
            ++ ';' :: (['r', 't', 'p', 't', 'i', 'm', 'e', '='] ++ natChars t)) := by
        simp [RtpInfo.toChars]
      rw [he, RtpInfo.from_str, splitSemi_append _ hA,
        splitSemi_append _ semi_not_mem_seq_seg,
        splitSemi_no_semi semi_not_mem_rtptime_seg]
      simp only [stripPfx_append, RtpInfo.new, parse_parameter_seq hsb,
        parse_parameter_rtptime htb]

/-- Witness for C9 at the concrete record
`{url := "rtsp://s/a", seq := 42, rtptime := 7}`. -/
theorem rtp_info_roundtrip_witness :
    RtpInfo.from_str (RtpInfo.toChars ⟨"rtsp://s/a".toList, some 42, some 7⟩)
      = .ok ⟨"rtsp://s/a".toList, some 42, some 7⟩ :=
  rtp_info_roundtrip ⟨"rtsp://s/a".toList, some 42, some 7⟩ (by decide)
    ⟨fun v hv => by cases hv; norm_num, fun v hv => by cases hv; norm_num⟩

/-- C8: the three concrete RTP-Info parses of the specification:
`"url=rtsp://s/a;seq=42;rtptime=7"` parses to
`{url := "rtsp://s/a", seq := 42, rtptime := 7}`;
`"url=rtsp://s/a;bogus=1"` fails with `RtpInfoParameterUnknown`; and
`"seq=1"` fails with `RtpInfoParameterUnknown` since its first field does
not start with `url=`. -/
theorem rtp_info_concrete_cases :
    RtpInfo.from_str ("url=rtsp://s/a;seq=42;rtptime=7".toList)
        = .ok ⟨"rtsp://s/a".toList, some 42, some 7⟩
    ∧ RtpInfo.from_str ("url=rtsp://s/a;bogus=1".toList)
        = .error (.rtpInfoParameterUnknown ("bogus=1".toList))
    ∧ RtpInfo.from_str ("seq=1".toList)
        = .error (.rtpInfoParameterUnknown ("seq=1".toList)) :=
  ⟨rfl, rfl, rfl⟩

/-- C7 counterexample: a duplicated `seq=` parameter is not a parse
error; `"url=u;seq=1;seq=2"` parses successfully, the second occurrence
overwriting the first. -/
theorem rtp_info_duplicate_seq_accepted :
    RtpInfo.from_str ("url=u;seq=1;seq=2".toList)
      = .ok ⟨"u".toList, some 2, none⟩ := rfl

/-- C7 amended: the parser bounds only the number of parameter segments
(at most two after `url=`); a duplicated `seq=` parameter is accepted,
with the later occurrence overwriting the earlier one. -/
theorem rtp_info_duplicate_seq_overwrites (u : List Char) (s1 s2 : Nat)
    (hu : ';' ∉ u) (h1 : s1 < 2 ^ 16) (h2 : s2 < 2 ^ 16) :
    RtpInfo.from_str ((['u', 'r', 'l', '='] ++ u)
        ++ ';' :: ((['s', 'e', 'q', '='] ++ natChars s1)
        ++ ';' :: (['s', 'e', 'q', '='] ++ natChars s2)))
      = .ok ⟨u, some s2, none⟩ := by
  rw [RtpInfo.from_str, splitSemi_append _ (semi_not_mem_url_part hu),
    splitSemi_append _ semi_not_mem_seq_seg,
    splitSemi_no_semi semi_not_mem_seq_seg]
  simp only [stripPfx_append, RtpInfo.new, parse_parameter_seq h1,
    parse_parameter_seq h2]

/-- Witness for the amended C7 at `url = "u"`, `s1 = 1`, `s2 = 2`. -/
theorem rtp_info_duplicate_seq_overwrites_witness :
    RtpInfo.from_str ((['u', 'r', 'l', '='] ++ "u".toList)
        ++ ';' :: ((['s', 'e', 'q', '='] ++ natChars 1)
        ++ ';' :: (['s', 'e', 'q', '='] ++ natChars 2)))
      = .ok ⟨"u".toList, some 2, none⟩ :=
  rtp_info_duplicate_seq_overwrites ("u".toList) 1 2 (by decide)
    (by norm_num) (by norm_num)

/-! ## Request handler (`src/oddity-rtsp-server/src/connection.rs`) -/

/-- The RTSP methods (`oddity_rtsp_protocol::Method`), exactly the
variants matched by `handle_request`. -/
inductive Method where
  | options | announce | describe | getParameter | setParameter
  | setup | play | pause | record | teardown | redirect
deriving DecidableEq, Repr

/-- Modelled from the spec: the closed status enumeration of §3, covering
the statuses `handle_request` produces. -/
inductive RtspStatus where
  | ok
  | notFound
  | methodNotAllowed
  | notAcceptable
  | sessionNotFound
  | methodNotValidInThisState
  | aggregateOperationNotAllowed
  | internalServerError
  | optionNotSupported
deriving DecidableEq, Repr

/-- Modelled from the spec: the 3-digit code of each status (§3). -/
def RtspStatus.code : RtspStatus → Nat
  | .ok => 200
  | .notFound => 404
  | .methodNotAllowed => 405
  | .notAcceptable => 406
  | .sessionNotFound => 454
  | .methodNotValidInThisState => 455
  | .aggregateOperationNotAllowed => 459
  | .internalServerError => 500
  | .optionNotSupported => 551

/-- Modelled from the spec: the view of a `Request` that `handle_request`
consumes — its method, URL path, `CSeq`, and the `Session`, `Require` and
`Accept` headers (`request.session()`, `request.require()`,
`request.accept()` of the protocol crate, whose source is not in the
verified tree). -/
structure Request where
  method : Method
  path : String
  cseq : Nat
  session : Option String
  require : Option String
  accept : List String
deriving DecidableEq, Repr

/-- Modelled from the spec: a `Response` under construction or built —
status, the echoed `CSeq`, the remaining headers in insertion order, and
an optional body (§3). -/
structure Response where
  status : RtspStatus
  cseq : Option Nat
  headers : List (String × String)
  body : Option String
deriving DecidableEq, Repr

/-- Modelled from the spec: `Response::ok()` starts a `200 OK` response. -/
def Response.ok : Response :=
  ⟨.ok, none, [], none⟩

/-- Modelled from the spec: `Response::error(status)` starts an error
response with the given status. -/
def Response.error (s : RtspStatus) : Response :=
  ⟨s, none, [], none⟩

/-- Modelled from the spec: `with_cseq_of(request)` copies the request's
`CSeq` into the response verbatim (§3, §4.4). -/
def Response.with_cseq_of (r : Response) (req : Request) : Response :=
  { r with cseq := some req.cseq }

/-- Modelled from the spec: `with_header(name, value)` appends a header,
preserving insertion order (§3). -/
def Response.with_header (r : Response) (name value : String) : Response :=
  { r with headers := r.headers ++ [(name, value)] }

/-- Modelled from the spec: `with_sdp(contents)` attaches an
`application/sdp` body (§4.4 DESCRIBE). -/
def Response.with_sdp (r : Response) (contents : String) : Response :=
  { r with
    headers := r.headers ++ [("Content-Type", "application/sdp")],
    body := some contents }

/-- Modelled from the spec: `build()` finishes the builder. -/
def Response.build (r : Response) : Response := r

/-- The outcome of `media::Controller::register_session` as
`handle_request` matches on it: `Ok(session)`, or one of the
`RegisterSessionError` variants `NotFound` / `AlreadyExists`. -/
inductive RegisterOutcome where
  | registered
  | notFound
  | alreadyExists
deriving DecidableEq, Repr

/-- Modelled from the spec: the `MediaController` collaborator surface
consumed by the handler (§6) — `query_sdp(path)` as a pure read, and the
outcome `register_session(path)` would produce for this call. -/
structure MediaController where
  query_sdp : String → Option String
  register_session : String → RegisterOutcome

/-- `is_request_require_supported`: no feature is supported, so the
request must carry no `Require` header. -/
def is_request_require_supported (request : Request) : Bool :=
  request.require.isNone

/-- `is_request_one_of_content_types_supported`: only `application/sdp`
is supported as a DESCRIBE content type. -/
def is_request_one_of_content_types_supported (request : Request) : Bool :=
  request.accept.contains "application/sdp"

/-- `reply_to_options_with_supported_methods`. -/
def reply_to_options_with_supported_methods (request : Request) : Response :=
  (((Response.ok.with_cseq_of request).with_header
    "Public" "OPTIONS, DESCRIBE, SETUP, PLAY, TEARDOWN")).build

/-- `reply_to_describe_with_media_sdp`. -/
def reply_to_describe_with_media_sdp (request : Request) (sdp_contents : String) :
    Response :=
  ((Response.ok.with_cseq_of request).with_sdp sdp_contents).build

/-- `reply_option_not_supported`. -/
def reply_option_not_supported (request : Request) : Response :=
  ((Response.error .optionNotSupported).with_cseq_of request).build

/-- `reply_method_not_supported`. -/
def reply_method_not_supported (request : Request) : Response :=
  ((Response.error .methodNotAllowed).with_cseq_of request).build

/-- `reply_method_not_valid`. -/
def reply_method_not_valid (request : Request) : Response :=
  ((Response.error .methodNotValidInThisState).with_cseq_of request).build

/-- `reply_not_acceptable`. -/
def reply_not_acceptable (request : Request) : Response :=
  ((Response.error .notAcceptable).with_cseq_of request).build

/-- `reply_not_found`. -/
def reply_not_found (request : Request) : Response :=
  ((Response.error .notFound).with_cseq_of request).build

/-- `reply_aggregate_operation_not_allowed`. -/
def reply_aggregate_operation_not_allowed (request : Request) : Response :=
  ((Response.error .aggregateOperationNotAllowed).with_cseq_of request).build

/-- `reply_internal_server_error`. -/
def reply_internal_server_error (request : Request) : Response :=
  ((Response.error .internalServerError).with_cseq_of request).build

/-- `handle_request` of `connection.rs`.  The Rust function returns
`Result<Response, Box<dyn Error + Send>>` and can panic; the model wraps
that in `Option`, where `none` stands for a panic: the `unimplemented!()`
bodies of the SETUP success arm and of the PLAY and TEARDOWN arms.  The
code never constructs an `Err`, which the embedding reflects by never
producing `Except.error`. -/
def handle_request (request : Request) (media : MediaController) :
    Option (Except String Response) :=
  if ¬ is_request_require_supported request then
    some (.ok (reply_option_not_supported request))
  else
    match request.method with
    | .options => some (.ok (reply_to_options_with_supported_methods request))
    | .announce => some (.ok (reply_method_not_supported request))
    | .describe =>
      if is_request_one_of_content_types_supported request then
        match media.query_sdp request.path with
        | some media_sdp => some (.ok (reply_to_describe_with_media_sdp request media_sdp))
        | none => some (.ok (reply_not_found request))
      else
        some (.ok (reply_not_acceptable request))
    | .getParameter => some (.ok (reply_method_not_supported request))
    | .setParameter => some (.ok (reply_method_not_supported request))
    | .setup =>
      if request.session.isNone then
        match media.register_session request.path with
        | .registered => none
        | .notFound => some (.ok (reply_not_found request))
        | .alreadyExists => some (.ok (reply_internal_server_error request))
      else
        some (.ok (reply_aggregate_operation_not_allowed request))
    | .play => none
    | .pause => some (.ok (reply_method_not_supported request))
    | .record => some (.ok (reply_method_not_supported request))
    | .teardown => none
    | .redirect => some (.ok (reply_method_not_valid request))

/-- What one iteration of `reader_loop` does with a decoded request: send
the handler's response, log a handler error without replying, or — for
the panicking handler arms — neither. -/
inductive ReaderAction where
  | send (r : Response)
  | logFailure
  | panicked
deriving DecidableEq, Repr

/-- The dispatch step of `reader_loop` (`connection.rs`): on `Ok`
responses the response is enqueued for the writer; on `Err` the failure
is logged and no response is sent. -/
def reader_dispatch (request : Request) (media : MediaController) : ReaderAction :=
  match handle_request request media with
  | some (.ok response) => .send response
  | some (.error _) => .logFailure
  | none => .panicked

/-! ### Concrete requests and media controllers used in witnesses -/

/-- A media controller whose `register_session` always succeeds. -/
def mediaRegisters : MediaController :=
  ⟨fun _ => none, fun _ => .registered⟩

/-- A SETUP request with no `Session` header on a registered path. -/
def reqSetupFresh : Request :=
  ⟨.setup, "/a", 1, none, none, []⟩

/-- A PLAY request with no `Session` header. -/
def reqPlayNoSession : Request :=
  ⟨.play, "/a", 2, none, none, []⟩

/-- A TEARDOWN request with no `Session` header. -/
def reqTeardownNoSession : Request :=
  ⟨.teardown, "/a", 3, none, none, []⟩

/-! ### Claims about the request handler -/

/-- C1: every response `handle_request` produces carries the `CSeq` of
the inbound request, unchanged. -/
theorem handler_reflects_cseq (request : Request) (media : MediaController)
    (resp : Response) (h : handle_request request media = some (Except.ok resp)) :
    resp.cseq = some request.cseq := by
  unfold handle_request at h
  repeat' split at h
  any_goals exact Option.noConfusion h
  all_goals (injection h with h1; injection h1 with h2; rw [← h2]; rfl)

/-- Witness for C1: an OPTIONS request with `CSeq: 1`. -/
theorem handler_reflects_cseq_witness :
    (reply_to_options_with_supported_methods ⟨.options, "/", 1, none, none, []⟩).cseq
      = some 1 :=
  handler_reflects_cseq ⟨.options, "/", 1, none, none, []⟩ mediaRegisters
    (reply_to_options_with_supported_methods ⟨.options, "/", 1, none, none, []⟩) rfl

/-- C4: a request carrying any `Require` feature tag is answered with
`551 Option Not Supported` carrying the request's `CSeq`, before the
method switch is ever consulted (the early return fires for every
method). -/
theorem require_tag_rejected (request : Request) (media : MediaController)
    (t : String) (h : request.require = some t) :
    handle_request request media = some (.ok (reply_option_not_supported request))
    ∧ (reply_option_not_supported request).status.code = 551
    ∧ (reply_option_not_supported request).cseq = some request.cseq := by
  refine ⟨?_, rfl, rfl⟩
  have hb : is_request_require_supported request = false := by
    simp [is_request_require_supported, h]
  simp [handle_request, hb]

/-- Witness for C4: a SETUP request carrying `Require: feature.x`. -/
theorem require_tag_rejected_witness :
    handle_request ⟨.setup, "/a", 7, none, some "feature.x", []⟩ mediaRegisters
      = some (.ok (reply_option_not_supported ⟨.setup, "/a", 7, none, some "feature.x", []⟩))
    ∧ (reply_option_not_supported ⟨.setup, "/a", 7, none, some "feature.x", []⟩).status.code
        = 551
    ∧ (reply_option_not_supported ⟨.setup, "/a", 7, none, some "feature.x", []⟩).cseq
        = some 7 :=
  require_tag_rejected ⟨.setup, "/a", 7, none, some "feature.x", []⟩ mediaRegisters
    "feature.x" rfl

/-- C2 counterexample: a SETUP request without a `Session` header on a
path for which the media controller registers a session makes
`handle_request` hit `unimplemented!()` (modelled as `none`): no `200`
response with `Session` and `Transport` headers is produced. -/
theorem setup_success_panics :
    handle_request reqSetupFresh mediaRegisters = none := rfl

/-- C2 amended: for a SETUP request whose `Require` check passes — a
`Session` header yields `459 Aggregate Operation Not Allowed`; a
path-not-found registration yields `404`; a session-id collision yields
`500 Internal Server Error`; and a successful registration panics in
`unimplemented!()`, producing no response at all. -/
theorem setup_dispatch (request : Request) (media : MediaController)
    (hm : request.method = .setup) (hreq : request.require = none) :
    (∀ sid, request.session = some sid →
      handle_request request media
        = some (.ok (reply_aggregate_operation_not_allowed request))
      ∧ (reply_aggregate_operation_not_allowed request).status.code = 459
      ∧ (reply_aggregate_operation_not_allowed request).cseq = some request.cseq)
    ∧ (request.session = none →
        (media.register_session request.path = .notFound →
          handle_request request media = some (.ok (reply_not_found request))
          ∧ (reply_not_found request).status.code = 404)
        ∧ (media.register_session request.path = .alreadyExists →
          handle_request request media = some (.ok (reply_internal_server_error request))
          ∧ (reply_internal_server_error request).status.code = 500)
        ∧ (media.register_session request.path = .registered →
          handle_request request media = none)) := by
  have hb : is_request_require_supported request = true := by
    simp [is_request_require_supported, hreq]
  refine ⟨fun sid hsid => ⟨?_, rfl, rfl⟩,
    fun hnone => ⟨fun hr => ⟨?_, rfl⟩, fun hr => ⟨?_, rfl⟩, fun hr => ?_⟩⟩ <;>
    simp [handle_request, hb, hm, *]

/-- Witness for the amended C2, exercising all four branches on concrete
requests and media controllers. -/
theorem setup_dispatch_witness :
    (handle_request ⟨.setup, "/a", 4, some "abcd1234", none, []⟩ mediaRegisters
      = some (.ok (reply_aggregate_operation_not_allowed
          ⟨.setup, "/a", 4, some "abcd1234", none, []⟩)))
    ∧ (handle_request reqSetupFresh ⟨fun _ => none, fun _ => .notFound⟩
      = some (.ok (reply_not_found reqSetupFresh)))
    ∧ (handle_request reqSetupFresh ⟨fun _ => none, fun _ => .alreadyExists⟩
      = some (.ok (reply_internal_server_error reqSetupFresh)))
    ∧ (handle_request reqSetupFresh mediaRegisters = none) :=
  ⟨((setup_dispatch ⟨.setup, "/a", 4, some "abcd1234", none, []⟩ mediaRegisters
      rfl rfl).1 "abcd1234" rfl).1,
   (((setup_dispatch reqSetupFresh ⟨fun _ => none, fun _ => .notFound⟩
      rfl rfl).2 rfl).1 rfl).1,
   (((setup_dispatch reqSetupFresh ⟨fun _ => none, fun _ => .alreadyExists⟩
      rfl rfl).2 rfl).2.1 rfl).1,
   ((setup_dispatch reqSetupFresh mediaRegisters rfl rfl).2 rfl).2.2 rfl⟩

/-- C3 counterexample: a PLAY request and a TEARDOWN request without a
`Session` header do not receive `454 Session Not Found`; both handler
arms are `unimplemented!()` and panic (modelled as `none`). -/
theorem play_teardown_panic :
    handle_request reqPlayNoSession mediaRegisters = none
    ∧ handle_request reqTeardownNoSession mediaRegisters = none :=
  ⟨rfl, rfl⟩

/-- C3 amended: for every PLAY or TEARDOWN request whose `Require` check
passes, `handle_request` panics in `unimplemented!()` and produces no
response — in particular it never returns `454 Session Not Found`,
whatever the `Session` header holds. -/
theorem play_teardown_unimplemented (request : Request) (media : MediaController)
    (hreq : request.require = none)
    (hm : request.method = .play ∨ request.method = .teardown) :
    handle_request request media = none := by
  have hb : is_request_require_supported request = true := by
    simp [is_request_require_supported, hreq]
  rcases hm with hm | hm <;> simp [handle_request, hb, hm]

/-- Witness for the amended C3 at a concrete PLAY request. -/
theorem play_teardown_unimplemented_witness :
    handle_request reqPlayNoSession mediaRegisters = none :=
  play_teardown_unimplemented reqPlayNoSession mediaRegisters rfl (Or.inl rfl)

/-- C10: for requests whose method is OPTIONS, ANNOUNCE, DESCRIBE,
GET_PARAMETER, SET_PARAMETER, PAUSE, RECORD or REDIRECT, the handler
always returns `Ok` with a response — it never returns `Err` and never
panics — so the reader loop's handler-error branch (log and continue
without replying) is unreachable for these methods. -/
theorem handler_total_for_stateless (request : Request) (media : MediaController)
    (hm : request.method = .options ∨ request.method = .announce
        ∨ request.method = .describe ∨ request.method = .getParameter
        ∨ request.method = .setParameter ∨ request.method = .pause
        ∨ request.method = .record ∨ request.method = .redirect) :
    ∃ resp, handle_request request media = some (Except.ok resp)
      ∧ reader_dispatch request media = .send resp := by
  have mk : ∀ resp, handle_request request media = some (Except.ok resp) →
      ∃ r, handle_request request media = some (Except.ok r)
        ∧ reader_dispatch request media = .send r :=
    fun resp hh => ⟨resp, hh, by simp [reader_dispatch, hh]⟩
  by_cases hreq : is_request_require_supported request = true
  · rcases hm with hm | hm | hm | hm | hm | hm | hm | hm
    · apply mk (reply_to_options_with_supported_methods request)
      simp [handle_request, hreq, hm]
    · apply mk (reply_method_not_supported request)
      simp [handle_request, hreq, hm]
    · by_cases hacc : is_request_one_of_content_types_supported request = true
      · cases hq : media.query_sdp request.path with
        | some sdp =>
          apply mk (reply_to_describe_with_media_sdp request sdp)
          simp [handle_request, hreq, hm, hacc, hq]
        | none =>
          apply mk (reply_not_found request)
          simp [handle_request, hreq, hm, hacc, hq]
      · apply mk (reply_not_acceptable request)
        simp [handle_request, hreq, hm, hacc]
    · apply mk (reply_method_not_supported request)
      simp [handle_request, hreq, hm]
    · apply mk (reply_method_not_supported request)
      simp [handle_request, hreq, hm]
    · apply mk (reply_method_not_supported request)
      simp [handle_request, hreq, hm]
    · apply mk (reply_method_not_supported request)
      simp [handle_request, hreq, hm]
    · apply mk (reply_method_not_valid request)
      simp [handle_request, hreq, hm]
  · apply mk (reply_option_not_supported request)
    simp [handle_request, hreq]

/-- Witness for C10 at a concrete DESCRIBE request whose path has no
SDP registered. -/
theorem handler_total_for_stateless_witness :
    ∃ resp, handle_request ⟨.describe, "/a", 9, none, none, ["application/sdp"]⟩
        mediaRegisters = some (Except.ok resp)
      ∧ reader_dispatch ⟨.describe, "/a", 9, none, none, ["application/sdp"]⟩
        mediaRegisters = .send resp :=
  handler_total_for_stateless ⟨.describe, "/a", 9, none, none, ["application/sdp"]⟩
    mediaRegisters (Or.inr (Or.inr (Or.inl rfl)))

/-! ## Session registry (`src/oddity-rtsp-server/src/session/session_manager.rs`) -/

/-- The observable state of the session manager: the key set of the
`SessionMap`, plus the queue of `SessionState::Stopped(id)` notifications
that torn-down sessions have published but the manager's `run` loop has
not yet consumed.  The queue half is modelled from the spec (§4.3):
`Session::teardown` (not under `src/`) stops the session cooperatively,
after which the session publishes `Stopped(id)` on the state channel. -/
structure SessionManagerState where
  sessions : Finset String
  stopped_queue : List String
deriving DecidableEq

/-- `SessionManager::teardown`: look the id up in the map; if present,
tear the session down (the session will publish `Stopped(id)`, modelled
by enqueueing it) and return `Some(())`; the map entry is not removed
here.  If absent, return `None` and leave everything unchanged. -/
def SessionManager.teardown (id : String) (s : SessionManagerState) :
    Option Unit × SessionManagerState :=
  if id ∈ s.sessions then
    (some (), { s with stopped_queue := s.stopped_queue ++ [id] })
  else
    (none, s)

/-- One iteration of `SessionManager::run`: consume the next session
state notification; on `Stopped(id)` remove the map entry. -/
def SessionManager.run_step (s : SessionManagerState) : SessionManagerState :=
  match s.stopped_queue with
  | [] => s
  | id :: rest => ⟨s.sessions.erase id, rest⟩

/-- C6 counterexample: on a registry whose map holds exactly session
`"abcd1234"`, two immediately successive `teardown("abcd1234")` calls
both return `present` — the first call does not remove the map entry
(removal happens only when the `run` loop consumes the session's
`Stopped` notification), so the second call still finds it, contradicting
the claimed `present` / `not present` sequence. -/
theorem teardown_twice_both_present :
    (SessionManager.teardown "abcd1234" ⟨{"abcd1234"}, []⟩).1 = some ()
    ∧ (SessionManager.teardown "abcd1234"
        (SessionManager.teardown "abcd1234" ⟨{"abcd1234"}, []⟩).2).1 = some () := by
  constructor <;> rfl

/-- C6 amended: `teardown(id)` on a present id returns `present` and
leaves the map unchanged, so an immediately repeated call returns
`present` again; the entry disappears only when the `run` loop consumes
the session's `Stopped` notification, after which `teardown(id)` returns
`not present` — and keeps doing so, since `teardown` on an absent id
changes nothing. -/
theorem teardown_present_until_stopped (id : String) (s : SessionManagerState)
    (hid : id ∈ s.sessions) (hq : s.stopped_queue = []) :
    (SessionManager.teardown id s).1 = some ()
    ∧ ((SessionManager.teardown id s).2).sessions = s.sessions
    ∧ (SessionManager.teardown id ((SessionManager.teardown id s).2)).1 = some ()
    ∧ (SessionManager.run_step ((SessionManager.teardown id s).2)).sessions
        = s.sessions.erase id
    ∧ (SessionManager.teardown id
        (SessionManager.run_step ((SessionManager.teardown id s).2))).1 = none
    ∧ ∀ s' : SessionManagerState, id ∉ s'.sessions →
        SessionManager.teardown id s' = (none, s') := by
  have h1 : SessionManager.teardown id s
      = (some (), { s with stopped_queue := s.stopped_queue ++ [id] }) := by
    simp [SessionManager.teardown, hid]
  refine ⟨by rw [h1], by rw [h1], ?_, ?_, ?_, ?_⟩
  · rw [h1]; simp [SessionManager.teardown, hid]
  · rw [h1]; simp [SessionManager.run_step, hq]
  · rw [h1]
    simp [SessionManager.run_step, hq, SessionManager.teardown, Finset.not_mem_erase]
  · intro s' hs'
    simp [SessionManager.teardown, hs']

/-- Witness for the amended C6: after the `run` loop consumes the
`Stopped` notification of the singleton session, `teardown` reports
`not present`. -/
theorem teardown_present_until_stopped_witness :
    (SessionManager.teardown "abcd1234"
      (SessionManager.run_step
        ((SessionManager.teardown "abcd1234" ⟨{"abcd1234"}, []⟩).2))).1 = none :=
  (teardown_present_until_stopped "abcd1234" ⟨{"abcd1234"}, []⟩
    (by decide) rfl).2.2.2.2.1

/-! ## Framing codec (`src/oddity-rtsp-protocol/src/tokio.rs`)

The codec state machine of `tokio.rs` is in the verified tree; the two
parsers it drives (`Parser` and `InterleavedParser`) are not, so they are
modelled from the spec (§4.2). -/

/-- Modelled from the spec: the message parser's sub-state,
`StartLine → Headers → Body`. -/
inductive MsgPhase where
  | startLine
  | headers
  | body
deriving DecidableEq, Repr

/-- Modelled from the spec: the incremental RTSP message parser
(`Parser<T::Inbound>` of the protocol crate): the current line being
accumulated, the finished start line and header lines, and the body with
the byte count that `Content-Length` demands. -/
structure MsgParser where
  phase : MsgPhase
  cur : List Nat
  start_line : List Nat
  header_lines : List (List Nat)
  body_needed : Nat
  body_acc : List Nat
deriving DecidableEq, Repr

/-- `Parser::new`: ready for a fresh start line. -/
def MsgParser.new : MsgParser := ⟨.startLine, [], [], [], 0, []⟩

/-- Drop a trailing carriage return from a completed line: `CRLF` is
canonical, a lone `LF` is also accepted. -/
def stripCR (l : List Nat) : List Nat :=
  match l.getLast? with
  | some 13 => l.dropLast
  | _ => l

/-- ASCII lower-casing of one byte, for case-insensitive header names. -/
def lowerByte (b : Nat) : Nat :=
  if 65 ≤ b ∧ b ≤ 90 then b + 32 else b

/-- Split a header line at its first colon into name and value. -/
def splitColon : List Nat → Option (List Nat × List Nat)
  | [] => none
  | 58 :: rest => some ([], rest)
  | b :: rest =>
    match splitColon rest with
    | some (n, v) => some (b :: n, v)
    | none => none

/-- Trim horizontal whitespace (space, tab) from both ends. -/
def trimWs (l : List Nat) : List Nat :=
  (((l.dropWhile fun b => b == 32 || b == 9).reverse.dropWhile
    fun b => b == 32 || b == 9)).reverse

/-- Accumulating decimal parse over ASCII digit bytes. -/
def byteDigitsVal : List Nat → Nat → Option Nat
  | [], acc => some acc
  | b :: rest, acc =>
    if 48 ≤ b ∧ b ≤ 57 then byteDigitsVal rest (acc * 10 + (b - 48)) else none

/-- Parse a nonempty all-digit byte list into a `Nat`. -/
def parseByteNat : List Nat → Option Nat
  | [] => none
  | l => byteDigitsVal l 0

/-- Modelled from the spec: the `Content-Length` value of a header block
(name compared ASCII-case-insensitively, value trimmed); zero when
absent. -/
def contentLengthOf : List (List Nat) → Nat
  | [] => 0
  | line :: rest =>
    match splitColon line with
    | some (n, v) =>
      if (trimWs n).map lowerByte
          = [99, 111, 110, 116, 101, 110, 116, 45, 108, 101, 110, 103, 116, 104] then
        match parseByteNat (trimWs v) with
        | some len => len
        | none => contentLengthOf rest
      else contentLengthOf rest
    | none => contentLengthOf rest

/-- Modelled from the spec: feed one byte to the message parser; `true`
when the message just completed.  In `StartLine` and `Headers` a line
ends at `LF`; the bare line ending the header block fixes the body length
from `Content-Length` (done immediately when it is zero); in `Body` the
message is done once `body_needed` bytes have arrived. -/
def MsgParser.step (p : MsgParser) (b : Nat) : MsgParser × Bool :=
  match p.phase with
  | .startLine =>
    if b = 10 then
      ({ p with phase := .headers, start_line := stripCR p.cur, cur := [] }, false)
    else ({ p with cur := p.cur ++ [b] }, false)
  | .headers =>
    if b = 10 then
      let line := stripCR p.cur
      if line = [] then
        let cl := contentLengthOf p.header_lines
        if cl = 0 then ({ p with phase := .body, cur := [], body_needed := 0 }, true)
        else ({ p with phase := .body, cur := [], body_needed := cl }, false)
      else ({ p with header_lines := p.header_lines ++ [line], cur := [] }, false)
    else ({ p with cur := p.cur ++ [b] }, false)
  | .body =>
    let acc := p.body_acc ++ [b]
    (({ p with body_acc := acc }), decide (p.body_needed ≤ acc.length))

/-- The parser's verdict for one `parse` call. -/
inductive ParseStatus where
  | done
  | hungry
deriving DecidableEq, Repr

/-- Modelled from the spec: `Parser::parse` consumes buffer bytes until
the message reports done or the buffer is exhausted; returns the status,
the advanced parser, and the unconsumed remainder of the buffer. -/
def MsgParser.parse : MsgParser → List Nat → ParseStatus × MsgParser × List Nat
  | p, [] => (.hungry, p, [])
  | p, b :: rest =>
    match p.step b with
    | (p', true) => (.done, p', rest)
    | (p', false) => MsgParser.parse p' rest

/-- Decoder errors: an unknown protocol version on the start line, or an
interleaved header that does not begin with the magic byte. -/
inductive CodecError where
  | versionUnknown (line : List Nat)
  | badMagic (b : Nat)
deriving DecidableEq, Repr

/-- Modelled from the spec: the message surrendered by
`Parser::into_message` — start line, header lines and body bytes. -/
structure RtspMsg where
  start_line : List Nat
  header_lines : List (List Nat)
  body : List Nat
deriving DecidableEq, Repr

/-- Split a byte list on spaces, for the start-line tokens. -/
def splitSp : List Nat → List (List Nat)
  | [] => [[]]
  | b :: rest =>
    if b = 32 then [] :: splitSp rest
    else
      match splitSp rest with
      | [] => [[b]]
      | g :: gs => (b :: g) :: gs

/-- Modelled from the spec: `Parser::into_message` — the version token of
the start line must read `RTSP/1.0`, otherwise the decoder fails. -/
def MsgParser.into_message (p : MsgParser) : Except CodecError RtspMsg :=
  match (splitSp p.start_line).getLast? with
  | some v =>
    if v = [82, 84, 83, 80, 47, 49, 46, 48] then
      .ok ⟨p.start_line, p.header_lines, p.body_acc⟩
    else .error (.versionUnknown p.start_line)
  | none => .error (.versionUnknown p.start_line)

/-- Modelled from the spec: the interleaved-frame parser's buffered
bytes. -/
structure InterleavedParser where
  acc : List Nat
deriving DecidableEq, Repr

/-- `InterleavedParser::new`. -/
def InterleavedParser.new : InterleavedParser := ⟨[]⟩

/-- The magic byte `0x24` (`$`) introducing an interleaved frame
(`interleaved::MAGIC`). -/
def MAGIC : Nat := 36

/-- Modelled from the spec: `InterleavedParser::parse` — the four-byte
header `0x24, channel: u8, length: u16 big-endian`, then `length` payload
bytes; `none` while hungry, `some` of the channel/payload pair on
completion, an error for a header not led by the magic byte.  Returns the
mutated parser and the unconsumed remainder of the buffer. -/
def InterleavedParser.parse (ip : InterleavedParser) (src : List Nat) :
    Option (Except CodecError (Nat × List Nat)) × InterleavedParser × List Nat :=
  let all := ip.acc ++ src
  match all with
  | m :: ch :: hi :: lo :: rest =>
    if m ≠ MAGIC then (some (.error (.badMagic m)), ⟨all⟩, [])
    else
      let len := hi * 256 + lo
      if len ≤ rest.length then
        (some (.ok (ch, rest.take len)), ⟨all⟩, src.drop (4 + len - ip.acc.length))
      else (none, ⟨all⟩, [])
  | _ => (none, ⟨all⟩, [])

/-- The codec discrimination state of `tokio.rs`. -/
inductive CodecState where
  | init
  | parseMessage
  | parseInterleaved
deriving DecidableEq, Repr

/-- The decoded item (`MaybeInterleaved`): an RTSP message or an
interleaved binary frame. -/
inductive MaybeInterleaved where
  | message (m : RtspMsg)
  | interleaved (channel : Nat) (payload : List Nat)
deriving DecidableEq, Repr

/-- The `Codec` of `tokio.rs`: discrimination state plus the two
parsers. -/
structure Codec where
  state : CodecState
  parser : MsgParser
  ipar : InterleavedParser
deriving DecidableEq, Repr

/-- `Codec::new`: starts in `Init` with fresh parsers. -/
def Codec.new : Codec := ⟨.init, MsgParser.new, InterleavedParser.new⟩

/-- The `State::ParseMessage` arm of `Codec::decode`: feed the buffer to
the message parser; on done, reset the state to `Init`, replace the
parser with a fresh one and surrender the message (an `into_message`
error propagates after that reset); on hungry, keep the advanced
parser. -/
def Codec.decodeMessage (c : Codec) (src : List Nat) :
    Except CodecError (Option MaybeInterleaved) × Codec × List Nat :=
  match MsgParser.parse c.parser src with
  | (.done, p', rest) =>
    match p'.into_message with
    | .ok m =>
      (.ok (some (.message m)), { c with state := .init, parser := MsgParser.new }, rest)
    | .error e =>
      (.error e, { c with state := .init, parser := MsgParser.new }, rest)
  | (.hungry, p', rest) => (.ok none, { c with parser := p' }, rest)

/-- The `State::ParseInterleaved` arm of `Codec::decode`: feed the buffer
to the interleaved parser; on completion reset to `Init` with a fresh
interleaved parser and emit the frame; a parse error propagates before
the state is reset. -/
def Codec.decodeInterleaved (c : Codec) (src : List Nat) :
    Except CodecError (Option MaybeInterleaved) × Codec × List Nat :=
  match InterleavedParser.parse c.ipar src with
  | (some r, ip', rest) =>
    match r with
    | .ok (channel, payload) =>
      (.ok (some (.interleaved channel payload)),
       { c with state := .init, ipar := InterleavedParser.new }, rest)
    | .error e => (.error e, { c with ipar := ip' }, rest)
  | (none, ip', rest) => (.ok none, { c with ipar := ip' }, rest)

/-- `Codec::decode` of `tokio.rs`: in `Init`, an empty buffer is hungry
(`Ok(None)`); otherwise the first byte selects `ParseInterleaved` (magic
`0x24`) or `ParseMessage`, and the arm for the (possibly just-entered)
state runs. -/
def Codec.decode (c : Codec) (src : List Nat) :
    Except CodecError (Option MaybeInterleaved) × Codec × List Nat :=
  match c.state, src with
  | .init, [] => (.ok none, c, [])
  | .init, b :: rest =>
    if b = MAGIC then
      Codec.decodeInterleaved { c with state := .parseInterleaved } (b :: rest)
    else
      Codec.decodeMessage { c with state := .parseMessage } (b :: rest)
  | .parseMessage, _ => Codec.decodeMessage c src
  | .parseInterleaved, _ => Codec.decodeInterleaved c src

/-- C5: at `Init` an empty buffer yields no item (hungry); a first byte
`0x24` (`$`) makes the decoder enter interleaved-frame parsing, and any
other first byte makes it enter message parsing; and while a message
parse is in progress the leading byte is never re-examined as the magic
discriminator — whatever the buffer holds (in particular a leading `$`),
the decoder never yields an interleaved frame and never moves to
`ParseInterleaved`: the state either stays `ParseMessage` with no item
(hungry) or returns to `Init` (message complete). -/
theorem codec_decode_discrimination (c : Codec) (b : Nat) (src : List Nat) :
    (c.state = .init → Codec.decode c [] = (.ok none, c, []))
    ∧ (c.state = .init → b = MAGIC →
        Codec.decode c (b :: src)
          = Codec.decodeInterleaved { c with state := .parseInterleaved } (b :: src))
    ∧ (c.state = .init → b ≠ MAGIC →
        Codec.decode c (b :: src)
          = Codec.decodeMessage { c with state := .parseMessage } (b :: src))
    ∧ (c.state = .parseMessage →
        (((Codec.decode c src).2.1.state = .parseMessage
            ∧ (Codec.decode c src).1 = .ok none)
          ∨ (Codec.decode c src).2.1.state = .init)
        ∧ ∀ channel payload,
            (Codec.decode c src).1 ≠ .ok (some (.interleaved channel payload))) := by
  obtain ⟨st, pr, ip⟩ := c
  refine ⟨?_, ?_, ?_, ?_⟩
  · intro h
    cases h
    rfl
  · intro h hb
    cases h
    cases hb
    simp [Codec.decode]
  · intro h hb
    cases h
    simp [Codec.decode, hb]
  · intro h
    cases h
    have hd : ∀ s : List Nat,
        Codec.decode ⟨.parseMessage, pr, ip⟩ s
          = Codec.decodeMessage ⟨.parseMessage, pr, ip⟩ s := by
      intro s
      cases s <;> rfl
    rw [hd]
    rcases hp : MsgParser.parse pr src with ⟨status, p', rest⟩
    cases status with
    | done =>
      cases hmsg : p'.into_message with
      | ok m =>
        constructor
        · right
          simp [Codec.decodeMessage, hp, hmsg]
        · intro channel payload
          simp [Codec.decodeMessage, hp, hmsg]
      | error e =>
        constructor
        · right
          simp [Codec.decodeMessage, hp, hmsg]
        · intro channel payload
          simp [Codec.decodeMessage, hp, hmsg]
    | hungry =>
      constructor
      · left
        constructor <;> simp [Codec.decodeMessage, hp]
      · intro channel payload
        simp [Codec.decodeMessage, hp]

/-- Witness for C5: the `Init` cases on a fresh codec with buffers `[]`,
`[0x24]` and `[0x4F]`, and the `ParseMessage` case on the buffer
`[0x24, 0, 0, 4]`, whose leading `$` is not treated as a frame start. -/
theorem codec_decode_discrimination_witness :
    Codec.decode Codec.new [] = (.ok none, Codec.new, [])
    ∧ Codec.decode Codec.new [36]
        = Codec.decodeInterleaved { Codec.new with state := .parseInterleaved } [36]
    ∧ Codec.decode Codec.new [79]
        = Codec.decodeMessage { Codec.new with state := .parseMessage } [79]
    ∧ (((Codec.decode { Codec.new with state := .parseMessage } [36, 0, 0, 4]).2.1.state
            = CodecState.parseMessage
          ∧ (Codec.decode { Codec.new with state := .parseMessage } [36, 0, 0, 4]).1
            = .ok none)
        ∨ (Codec.decode { Codec.new with state := .parseMessage } [36, 0, 0, 4]).2.1.state
            = CodecState.init) :=
  ⟨(codec_decode_discrimination Codec.new 0 []).1 rfl,
   (codec_decode_discrimination Codec.new 36 []).2.1 rfl rfl,
   (codec_decode_discrimination Codec.new 79 []).2.2.1 rfl (by decide),
   ((codec_decode_discrimination { Codec.new with state := .parseMessage } 0
      [36, 0, 0, 4]).2.2.2 rfl).1⟩

end OddityRtsp
